import Mathlib

/-!
Verification development for the youcast audio extraction core.

The definitions below are a shallow embedding of the JavaScript source:

* `ProfileConfig`, `needsConversion` — the profile record and the
  topology test at the top of `extractAudioStream`
  (src/utils/audio-extractor.js).
* `getDefaultProfile`, `getProfileConfig` — src/utils/profile-utils.js.
* `handleAudioRequest` — the videoId validation gate of the
  `GET /audio/:videoId` route (src/routes/audio.js).
* `stepSingle` / `runSingle` — the event handlers of the single-stage
  (direct yt-dlp streaming) branch of `extractAudioStream`, as a step
  function over an explicit request state driven by a list of observed
  events (stdout data, stderr data, process close, process error).
* `stepTwo` / `runTwo` — likewise for the two-stage
  (yt-dlp → ffmpeg) branch, together with the consumer-disconnect
  handler of the audio route (`stream.destroy()` on request close).

JavaScript strings are embedded as `String`, byte counts as `Nat`,
exit codes as `Int`, and the promise of `extractAudioStream` as a
single-assignment latch `Option Settlement` (`settle`): a JavaScript
promise keeps its first settlement and ignores later resolve/reject
calls.
-/

namespace YouCast

/-- Configuration record for a named audio profile, as loaded from
config/yt-dlp-profiles.json and consumed by `extractAudioStream`.
`postprocessorArgs` is optional in the JSON; `none` embeds an absent
(undefined) field and `some ""` an explicitly empty one. -/
structure ProfileConfig where
  description : String
  audioFormat : String
  contentType : String
  fileExtension : String
  additionalArgs : List String
  postprocessorArgs : Option String
deriving DecidableEq, Repr

/-- Whitespace test for the embedding of JavaScript
`String.prototype.trim`, covering space, tab, carriage return and
newline. -/
def isJsSpace (c : Char) : Bool :=
  c == ' ' || c == '\t' || c == '\r' || c == '\n'

/-- Embedding of JavaScript `s.trim()`: drop whitespace from both ends
of the string. Written with structural `dropWhile` so that it
evaluates by kernel reduction. -/
def jsTrim (s : String) : String :=
  ⟨((s.data.dropWhile isJsSpace).reverse.dropWhile isJsSpace).reverse⟩

/-- Embeds the topology test of `extractAudioStream`:
`profileConfig.postprocessorArgs && profileConfig.postprocessorArgs.trim() !== ''`.
An absent field is falsy, as is the empty string; otherwise the trimmed
value must be nonempty. -/
def needsConversion (pc : ProfileConfig) : Bool :=
  match pc.postprocessorArgs with
  | none => false
  | some s => !(s == "") && !(jsTrim s == "")

/-- Embeds `getDefaultProfile` of profile-utils.js:
`process.env.DEFAULT_AUDIO_PROFILE || 'mp3'`. The environment variable
is `none` when unset; the JavaScript or-fallback also treats the empty
string as absent. -/
def getDefaultProfile (env : Option String) : String :=
  match env with
  | none => "mp3"
  | some s => if s = "" then "mp3" else s

/-- Embeds `getProfileConfig` of profile-utils.js. `profiles` is the
loaded profiles map (`none` for a name with no entry), `env` the
DEFAULT_AUDIO_PROFILE variable, `requested` the requested profile name
(`none` embeds null/undefined). The source guard is
`if (requestedProfile && profilesConfig[requestedProfile])`, so a falsy
(empty) requested name falls through to the default branch even when
the map has an entry for it. -/
def getProfileConfig (profiles : String → Option ProfileConfig)
    (env : Option String) (requested : Option String) :
    String × Option ProfileConfig :=
  let d := getDefaultProfile env
  match requested with
  | none => (d, profiles d)
  | some r =>
    if r = "" then (d, profiles d)
    else
      match profiles r with
      | some c => (r, some c)
      | none => (d, profiles d)

/-- Outcome of the videoId validation gate of `GET /audio/:videoId`:
either respond immediately with an HTTP status (no subprocess is
spawned), or proceed to `extractAudioStream` for the given id. -/
inductive AudioGate where
  | reject (status : Nat)
  | extract (videoId : String)
deriving DecidableEq, Repr

/-- Embeds the validation at the top of the audio route handler:
`if (!videoId || videoId.length !== 11)` responds 400 before any
extraction; otherwise `extractAudioStream` is reached. -/
def handleAudioRequest (videoId : Option String) : AudioGate :=
  match videoId with
  | none => .reject 400
  | some v =>
    if v = "" then .reject 400
    else if v.length != 11 then .reject 400
    else .extract v

end YouCast

namespace YouCast

/-- C8: topology selection is a total function of the postprocessorArgs
field alone — two profiles agreeing on that field select the same
topology — and it selects the two-stage pipeline exactly when the field
is present with a value that is nonempty after trimming; absent or
whitespace-only values select single-stage. -/
theorem c8_topology_selection (pc1 pc2 : ProfileConfig)
    (h : pc1.postprocessorArgs = pc2.postprocessorArgs) :
    needsConversion pc1 = needsConversion pc2 ∧
      (needsConversion pc1 = true ↔
        ∃ s, pc1.postprocessorArgs = some s ∧ jsTrim s ≠ "") := by
  constructor
  · unfold needsConversion
    rw [h]
  · unfold needsConversion
    cases hp : pc1.postprocessorArgs with
    | none => simp
    | some s =>
      simp only [Bool.and_eq_true, Bool.not_eq_true', beq_eq_false_iff_ne,
        ne_eq, Option.some.injEq]
      constructor
      · rintro ⟨h1, h2⟩
        exact ⟨s, rfl, h2⟩
      · rintro ⟨t, ht, htr⟩
        subst ht
        refine ⟨fun hs => htr ?_, htr⟩
        subst hs
        rfl

/-- Profile used as a concrete input for the C8 witness. -/
def mp3LowProfile : ProfileConfig :=
  { description := "low bitrate mp3"
    audioFormat := "mp3"
    contentType := "audio/mpeg"
    fileExtension := "mp3"
    additionalArgs := []
    postprocessorArgs := some "ffmpeg:-b:a 64k -ac 1" }

/-- Second profile for the C8 witness, agreeing with `mp3LowProfile`
on postprocessorArgs only. -/
def mp3AltProfile : ProfileConfig :=
  { description := "another description"
    audioFormat := "m4a"
    contentType := "audio/mp4"
    fileExtension := "m4a"
    additionalArgs := ["--no-playlist"]
    postprocessorArgs := some "ffmpeg:-b:a 64k -ac 1" }

/-- Witness for C8 at two concrete profiles sharing a
postprocessorArgs value. -/
theorem c8_topology_selection_witness :
    needsConversion mp3LowProfile = needsConversion mp3AltProfile ∧
      (needsConversion mp3LowProfile = true ↔
        ∃ s, mp3LowProfile.postprocessorArgs = some s ∧ jsTrim s ≠ "") :=
  c8_topology_selection mp3LowProfile mp3AltProfile rfl

/-- Profile stored under the empty-string key in the C9
counterexample configuration. -/
def emptyNameProfile : ProfileConfig :=
  { description := "profile whose configured name is the empty string"
    audioFormat := "mp3"
    contentType := "audio/mpeg"
    fileExtension := "mp3"
    additionalArgs := []
    postprocessorArgs := none }

/-- Profiles map for the C9 counterexample: its only entry is under
the empty-string name. -/
def profilesEmptyKey : String → Option ProfileConfig :=
  fun n => if n = "" then some emptyNameProfile else none

/-- C9 fails as stated: the empty-string profile name exists in this
configuration, yet requesting it does not return that name and its
configuration — the truthiness guard sends it to the default branch,
which returns "mp3" with no configuration. -/
theorem c9_counterexample :
    profilesEmptyKey "" = some emptyNameProfile ∧
      getProfileConfig profilesEmptyKey none (some "") = ("mp3", none) := by
  constructor
  · rfl
  · rfl

/-- C9 amended: `getProfileConfig` is total; it returns the requested
name and its configuration when the requested name is truthy
(non-empty) and present in the map, and in every other case — null,
undefined, empty, or absent from the map — it returns the default
profile name together with whatever the map holds for that name. -/
theorem c9_profile_fallback (profiles : String → Option ProfileConfig)
    (env : Option String) (requested : Option String) :
    (∀ s c, requested = some s → s ≠ "" → profiles s = some c →
        getProfileConfig profiles env requested = (s, some c)) ∧
      ((∀ s, requested = some s → s = "" ∨ profiles s = none) →
        getProfileConfig profiles env requested =
          (getDefaultProfile env, profiles (getDefaultProfile env))) := by
  constructor
  · rintro s c rfl hs hc
    simp [getProfileConfig, hs, hc]
  · intro hall
    cases requested with
    | none => rfl
    | some r =>
      rcases hall r rfl with hr | hr
      · simp [getProfileConfig, hr]
      · unfold getProfileConfig
        by_cases h0 : r = "" <;> simp [h0, hr]

/-- Profile used as a concrete input for the C9 witness. -/
def opusProfile : ProfileConfig :=
  { description := "opus"
    audioFormat := "opus"
    contentType := "audio/ogg"
    fileExtension := "opus"
    additionalArgs := []
    postprocessorArgs := none }

/-- Profiles map for the C9 witness, holding only an opus entry. -/
def profilesOpus : String → Option ProfileConfig :=
  fun n => if n = "opus" then some opusProfile else none

/-- Witness for C9 at a concrete map: a present, non-empty requested
name is returned with its configuration. -/
theorem c9_profile_fallback_witness :
    getProfileConfig profilesOpus none (some "opus") = ("opus", some opusProfile) :=
  (c9_profile_fallback profilesOpus none (some "opus")).1 "opus" opusProfile
    rfl (by decide) rfl

/-- C10: a missing videoId, or one whose length is not 11, receives an
immediate 400 response and never reaches extraction; an 11-character
videoId always proceeds to extraction. -/
theorem c10_videoid_gate (videoId : Option String) :
    ((∀ s, videoId = some s → s.length ≠ 11) →
        handleAudioRequest videoId = .reject 400) ∧
      (∀ s, videoId = some s → s.length = 11 →
        handleAudioRequest videoId = .extract s) := by
  constructor
  · intro hlen
    cases videoId with
    | none => rfl
    | some v =>
      have hv := hlen v rfl
      unfold handleAudioRequest
      by_cases h0 : v = ""
      · simp [h0]
      · simp only [h0, if_false]
        simp [bne_iff_ne, hv]
  · rintro s rfl hs
    have h0 : s ≠ "" := by
      intro h
      rw [h] at hs
      simp at hs
    unfold handleAudioRequest
    simp [h0, hs]

/-- Witness for C10 at two concrete videoIds: a short id is rejected
with 400 and an 11-character id reaches extraction. -/
theorem c10_videoid_gate_witness :
    handleAudioRequest (some "short") = .reject 400 ∧
      handleAudioRequest (some "dQw4w9WgXcQ") = .extract "dQw4w9WgXcQ" := by
  constructor
  · exact (c10_videoid_gate (some "short")).1 (by
      rintro s hs
      injection hs with hs
      subst hs
      decide)
  · exact (c10_videoid_gate (some "dQw4w9WgXcQ")).2 "dQw4w9WgXcQ" rfl (by decide)

end YouCast

namespace YouCast

/-- Events observable by the single-stage (direct streaming) branch of
`extractAudioStream`: a stdout data chunk of a given byte size, a
stderr data chunk, process close with an exit code, or a process-level
error (such as a spawn failure). -/
inductive SEvent where
  | out (chunk : Nat)
  | errData (s : String)
  | close (code : Int)
  | procError (msg : String)
deriving DecidableEq, Repr

/-- Settlement of the request promise: resolved with a handle, or
rejected with an error message. -/
inductive Settlement where
  | resolved
  | rejected (msg : String)
deriving DecidableEq, Repr

/-- Promise latch: the first settlement wins and every later resolve or
reject call is a no-op, as for a JavaScript promise. -/
def settle (st : Option Settlement) (s : Settlement) : Option Settlement :=
  match st with
  | none => some s
  | some x => some x

/-- State of one single-stage request: the promise latch, the
`streamStarted` flag, the accumulated stderr text, and the number of
stdout bytes emitted so far. -/
structure SingleState where
  settled : Option Settlement
  streamStarted : Bool
  stderr : String
  bytes : Nat
deriving DecidableEq, Repr

/-- State at the moment the handlers are attached: nothing settled,
no output seen, empty stderr. -/
def initSingle : SingleState :=
  { settled := none, streamStarted := false, stderr := "", bytes := 0 }

/-- Rejection message built by the single-stage close handler:
the exit code followed by the full accumulated stderr. -/
def closeMsg (code : Int) (stderr : String) : String :=
  "yt-dlp failed with exit code " ++ toString code ++ ": " ++ stderr

/-- One event-handler dispatch of the single-stage branch, mirroring
the handlers of `extractAudioStream`: the stdout data handler resolves
on the first chunk; the stderr handler appends to the buffer; the close
handler rejects only when the code is nonzero and no output was seen;
the error handler rejects unconditionally (the promise latch discards
it if already settled). -/
def stepSingle (st : SingleState) (e : SEvent) : SingleState :=
  match e with
  | .out chunk =>
    if st.streamStarted then { st with bytes := st.bytes + chunk }
    else
      { st with
        bytes := st.bytes + chunk
        streamStarted := true
        settled := settle st.settled .resolved }
  | .errData s => { st with stderr := st.stderr ++ s }
  | .close code =>
    if code != 0 && !st.streamStarted then
      { st with settled := settle st.settled (.rejected (closeMsg code st.stderr)) }
    else st
  | .procError msg =>
    { st with settled := settle st.settled (.rejected ("Failed to start yt-dlp: " ++ msg)) }

/-- Run of one single-stage request over an observed event sequence. -/
def runSingle (es : List SEvent) : SingleState :=
  es.foldl stepSingle initSingle

/-- A settled promise keeps its value through any later event. -/
theorem stepSingle_settled_stable (st : SingleState) (e : SEvent)
    (x : Settlement) (h : st.settled = some x) :
    (stepSingle st e).settled = some x := by
  cases e <;> simp only [stepSingle] <;> first
    | (split <;> simp [settle, h])
    | simp [settle, h]

/-- Fold form of `stepSingle_settled_stable`. -/
theorem foldSingle_settled_stable (es : List SEvent) (st : SingleState)
    (x : Settlement) (h : st.settled = some x) :
    (es.foldl stepSingle st).settled = some x := by
  induction es generalizing st with
  | nil => simpa using h
  | cons e es ih => exact ih _ (stepSingle_settled_stable st e x h)

/-- C1 fails on the code: when the single-stage extractor emits zero
stdout bytes and exits with code 0, no handler resolves or rejects, so
the request promise never settles at all rather than settling exactly
once. -/
theorem c1_zero_exit_never_settles :
    (runSingle [SEvent.close 0]).settled = none := rfl

/-- True exactly for stdout events with a positive chunk size; data
events of a byte stream always carry at least one byte. -/
def chunkPos : SEvent → Bool
  | SEvent.out c => decide (1 ≤ c)
  | _ => true

/-- Settling rejected can never produce a resolved latch. -/
theorem settle_rejected_ne_resolved (st : Option Settlement) (m : String)
    (h : settle st (Settlement.rejected m) = some Settlement.resolved) :
    st = some Settlement.resolved := by
  cases st with
  | none => simp [settle] at h
  | some x => simpa [settle] using h

/-- Invariant step for C4: if a state resolves only with at least one
byte seen, the same holds after any event whose stdout chunks are
positive. -/
theorem foldSingle_resolved_bytes (es : List SEvent) (st : SingleState)
    (hc : es.all chunkPos = true)
    (hst : st.settled = some Settlement.resolved → 1 ≤ st.bytes) :
    (es.foldl stepSingle st).settled = some Settlement.resolved →
      1 ≤ (es.foldl stepSingle st).bytes := by
  induction es generalizing st with
  | nil => exact hst
  | cons e es ih =>
    rw [List.all_cons, Bool.and_eq_true] at hc
    rw [List.foldl_cons]
    apply ih _ hc.2
    cases e with
    | out c =>
      have hcpos : 1 ≤ c := by simpa [chunkPos] using hc.1
      intro _
      simp only [stepSingle]
      split <;> simp <;> omega
    | errData s =>
      intro h
      simp only [stepSingle] at h ⊢
      exact hst h
    | close code =>
      intro h
      simp only [stepSingle] at h ⊢
      split at h
      · simp only at h
        have := settle_rejected_ne_resolved _ _ h
        split
        · exact hst this
        · exact hst this
      · split
        · exact hst h
        · exact hst h
    | procError msg =>
      intro h
      simp only [stepSingle] at h ⊢
      exact hst (settle_rejected_ne_resolved _ _ h)

/-- C4: in the single-stage branch, the request resolves with a handle
only after at least one stdout byte was emitted — in no reachable state
is the promise resolved while the byte count is zero. -/
theorem c4_resolve_requires_output (es : List SEvent)
    (hc : es.all chunkPos = true)
    (hr : (runSingle es).settled = some Settlement.resolved) :
    1 ≤ (runSingle es).bytes := by
  refine foldSingle_resolved_bytes es initSingle hc ?_ hr
  intro h
  simp [initSingle] at h

/-- Witness for C4 at a concrete run: one 3-byte stdout chunk. -/
theorem c4_resolve_requires_output_witness :
    1 ≤ (runSingle [SEvent.out 3]).bytes :=
  c4_resolve_requires_output [SEvent.out 3] (by decide) (by decide)

end YouCast

namespace YouCast

/-- Events observable by the two-stage (yt-dlp → ffmpeg) branch of
`extractAudioStream`, together with the consumer-disconnect handler of
the audio route: stderr chunks from either process, a process error for
either process, a close with exit code for either process, a relayed
stdout chunk reaching the final stream, and the consumer disconnect
that destroys that stream. -/
inductive TEvent where
  | ytdlpErrData (s : String)
  | ffmpegErrData (s : String)
  | ytdlpFail (msg : String)
  | ffmpegFail (msg : String)
  | ytdlpClose (code : Int)
  | ffmpegClose (code : Int)
  | outData (chunk : Nat)
  | disconnect
deriving DecidableEq, Repr

/-- The four candidate failure events of the two-stage branch. -/
inductive TwoFailure where
  | ytdlpSpawn (msg : String)
  | ffmpegSpawn (msg : String)
  | ytdlpExit (code : Int)
  | ffmpegExit (code : Int)
deriving DecidableEq, Repr

/-- The error message each failure handler passes to reject. -/
def twoFailureMsg : TwoFailure → String
  | .ytdlpSpawn msg => "yt-dlp failed: " ++ msg
  | .ffmpegSpawn msg => "ffmpeg conversion failed: " ++ msg
  | .ytdlpExit code => "yt-dlp failed with exit code " ++ toString code
  | .ffmpegExit code => "ffmpeg failed with exit code " ++ toString code

/-- State of one two-stage request. `settled` is the promise latch;
`hasError` the shared boolean guard of the failure handlers;
`rejectedWith` records the argument of the first (and only effective)
reject call; `stderr` the accumulated yt-dlp stderr; `streamErrored`
whether any handler raised an error event on the final stream;
`streamDestroyed` whether the route handler destroyed it; `delivered`
the bytes the final stream emitted to its consumer; `killSignals` the
number of termination signals sent to the subprocesses. -/
structure TwoState where
  settled : Option Settlement
  hasError : Bool
  rejectedWith : Option TwoFailure
  stderr : String
  streamErrored : Bool
  streamDestroyed : Bool
  delivered : Nat
  killSignals : Nat
deriving DecidableEq, Repr

/-- State right after the two-stage setup: both processes spawned and,
unlike single-stage, the promise already resolved synchronously at the
end of the executor — before any asynchronous event can fire. -/
def initTwo : TwoState :=
  { settled := some .resolved
    hasError := false
    rejectedWith := none
    stderr := ""
    streamErrored := false
    streamDestroyed := false
    delivered := 0
    killSignals := 0 }

/-- Body shared by the four failure handlers once the `hasError` guard
passes: set the guard, log, and call reject. The reject call goes
through the promise latch (a no-op when already settled); no handler
raises an error on the final stream and none signals a process, since
the source contains no such call. -/
def recordFailure (st : TwoState) (f : TwoFailure) : TwoState :=
  { st with
    hasError := true
    rejectedWith := some f
    settled := settle st.settled (.rejected (twoFailureMsg f)) }

/-- One event-handler dispatch of the two-stage branch. The ffmpeg
stderr handler only logs (it accumulates nothing); failure handlers
return immediately when `hasError` is already set; close handlers treat
exit code 0 as success; a data chunk reaches the consumer only while
the final stream is not destroyed; disconnect destroys the stream if
not already destroyed. -/
def stepTwo (st : TwoState) (e : TEvent) : TwoState :=
  match e with
  | .ytdlpErrData s => { st with stderr := st.stderr ++ s }
  | .ffmpegErrData _ => st
  | .ytdlpFail msg =>
    if st.hasError then st else recordFailure st (.ytdlpSpawn msg)
  | .ffmpegFail msg =>
    if st.hasError then st else recordFailure st (.ffmpegSpawn msg)
  | .ytdlpClose code =>
    if st.hasError then st
    else if code != 0 then recordFailure st (.ytdlpExit code) else st
  | .ffmpegClose code =>
    if st.hasError then st
    else if code != 0 then recordFailure st (.ffmpegExit code) else st
  | .outData chunk =>
    if st.streamDestroyed then st else { st with delivered := st.delivered + chunk }
  | .disconnect =>
    if st.streamDestroyed then st else { st with streamDestroyed := true }

/-- Run of one two-stage request over an observed event sequence. -/
def runTwo (es : List TEvent) : TwoState :=
  es.foldl stepTwo initTwo

/-- The failure candidate carried by an event, if any: process errors
always count; close events count exactly when the exit code is
nonzero. -/
def failureOf : TEvent → Option TwoFailure
  | .ytdlpFail msg => some (.ytdlpSpawn msg)
  | .ffmpegFail msg => some (.ffmpegSpawn msg)
  | .ytdlpClose code => if code != 0 then some (.ytdlpExit code) else none
  | .ffmpegClose code => if code != 0 then some (.ffmpegExit code) else none
  | _ => none

/-- No two-stage handler changes a resolved promise, raises a stream
error, or sends a termination signal. -/
theorem stepTwo_resolved_stable (st : TwoState) (e : TEvent)
    (h : st.settled = some Settlement.resolved) :
    (stepTwo st e).settled = some Settlement.resolved ∧
      (stepTwo st e).streamErrored = st.streamErrored ∧
      (stepTwo st e).killSignals = st.killSignals := by
  cases e <;> simp only [stepTwo, recordFailure] <;> first
    | (split <;> [skip; split] <;> simp [settle, h])
    | (split <;> simp [settle, h])
    | simp [settle, h]

/-- Fold form of `stepTwo_resolved_stable`. -/
theorem foldTwo_resolved_stable (es : List TEvent) (st : TwoState)
    (h : st.settled = some Settlement.resolved) :
    (es.foldl stepTwo st).settled = some Settlement.resolved ∧
      (es.foldl stepTwo st).streamErrored = st.streamErrored ∧
      (es.foldl stepTwo st).killSignals = st.killSignals := by
  induction es generalizing st with
  | nil => exact ⟨h, rfl, rfl⟩
  | cons e es ih =>
    obtain ⟨h1, h2, h3⟩ := stepTwo_resolved_stable st e h
    obtain ⟨g1, g2, g3⟩ := ih (stepTwo st e) h1
    exact ⟨g1, g2.trans h2, g3.trans h3⟩

/-- C2 fails as stated: at the concrete run where ffmpeg exits with
code 1 after both processes spawned and the handle was delivered, the
failure lands in the latch but no error event is ever raised on the
handle's stream — the failure is not surfaced there. -/
theorem c2_counterexample :
    (runTwo [TEvent.ffmpegClose 1]).hasError = true ∧
      (runTwo [TEvent.ffmpegClose 1]).settled = some Settlement.resolved ∧
      (runTwo [TEvent.ffmpegClose 1]).streamErrored = false := by
  refine ⟨rfl, ?_, rfl⟩
  exact (foldTwo_resolved_stable [TEvent.ffmpegClose 1] initTwo rfl).1

/-- C2 amended: in the two-stage branch the request promise resolves at
spawn time and stays resolved through every later event — a non-zero
exit never rejects the request and this core never throws to the caller
after returning the handle (the internal reject call is a latched
no-op) — but the failure is not surfaced as an error event on the
handle's stream either: no handler ever raises one, so the stream
merely ends. -/
theorem c2_no_reject_no_stream_error (es : List TEvent) :
    (runTwo es).settled = some Settlement.resolved ∧
      (runTwo es).streamErrored = false := by
  obtain ⟨h1, h2, _⟩ := foldTwo_resolved_stable es initTwo rfl
  exact ⟨h1, h2⟩

/-- C3 fails as stated: at the concrete run where the consumer
disconnects mid-stream, the route handler destroys the handle's stream,
yet zero termination signals have been sent — neither the transcoder
nor the upstream extractor is terminated; no code path signals them. -/
theorem c3_counterexample :
    (runTwo [TEvent.outData 4, TEvent.disconnect]).streamDestroyed = true ∧
      (runTwo [TEvent.outData 4, TEvent.disconnect]).killSignals = 0 := by
  exact ⟨rfl, rfl⟩

/-- Once the final stream is destroyed it stays destroyed and delivers
nothing further. -/
theorem stepTwo_destroyed_stable (st : TwoState) (e : TEvent)
    (h : st.streamDestroyed = true) :
    (stepTwo st e).streamDestroyed = true ∧
      (stepTwo st e).delivered = st.delivered := by
  cases e <;> simp only [stepTwo, recordFailure] <;> first
    | (split <;> [skip; split] <;> simp [h])
    | (split <;> simp [h])
    | simp [h]

/-- Fold form of `stepTwo_destroyed_stable`. -/
theorem foldTwo_destroyed_stable (es : List TEvent) (st : TwoState)
    (h : st.streamDestroyed = true) :
    (es.foldl stepTwo st).streamDestroyed = true ∧
      (es.foldl stepTwo st).delivered = st.delivered := by
  induction es generalizing st with
  | nil => exact ⟨h, rfl⟩
  | cons e es ih =>
    obtain ⟨h1, h2⟩ := stepTwo_destroyed_stable st e h
    obtain ⟨g1, g2⟩ := ih (stepTwo st e) h1
    exact ⟨g1, g2.trans h2⟩

/-- A disconnect leaves the stream destroyed. -/
theorem stepTwo_disconnect_destroys (st : TwoState) :
    (stepTwo st TEvent.disconnect).streamDestroyed = true := by
  simp only [stepTwo]
  split
  · assumption
  · rfl

/-- No event sends a termination signal. -/
theorem stepTwo_killSignals (st : TwoState) (e : TEvent) :
    (stepTwo st e).killSignals = st.killSignals := by
  cases e <;> simp only [stepTwo, recordFailure] <;> first
    | (split <;> [skip; split] <;> simp)
    | (split <;> simp)
    | simp

/-- Fold form of `stepTwo_killSignals`. -/
theorem foldTwo_killSignals (es : List TEvent) (st : TwoState) :
    (es.foldl stepTwo st).killSignals = st.killSignals := by
  induction es generalizing st with
  | nil => rfl
  | cons e es ih => exact (ih (stepTwo st e)).trans (stepTwo_killSignals st e)

/-- C3 amended: when the consumer disconnects, the route handler
destroys the handle's stream, after which no further bytes reach the
consumer for the rest of the run; however the owned subprocesses are
not terminated — no code path sends a termination signal to either
process, in this or any run, so extractor and transcoder are left
running. -/
theorem c3_destroy_without_kill (es tail : List TEvent) :
    (runTwo es).killSignals = 0 ∧
      (runTwo (es ++ TEvent.disconnect :: tail)).delivered =
        (runTwo (es ++ [TEvent.disconnect])).delivered := by
  constructor
  · exact foldTwo_killSignals es initTwo
  · have hbase : ∀ st : TwoState,
        (List.foldl stepTwo st (TEvent.disconnect :: tail)).delivered =
          (List.foldl stepTwo st [TEvent.disconnect]).delivered := by
      intro st
      rw [List.foldl_cons, List.foldl_cons, List.foldl_nil]
      exact (foldTwo_destroyed_stable tail _ (stepTwo_disconnect_destroys st)).2
    show (List.foldl stepTwo initTwo (es ++ TEvent.disconnect :: tail)).delivered =
        (List.foldl stepTwo initTwo (es ++ [TEvent.disconnect])).delivered
    rw [List.foldl_append, List.foldl_append]
    exact hbase _

/-- The `hasError` guard makes every later failure event a no-op on the
guard and the recorded failure. -/
theorem stepTwo_hasError_stable (st : TwoState) (e : TEvent)
    (h : st.hasError = true) :
    (stepTwo st e).hasError = true ∧
      (stepTwo st e).rejectedWith = st.rejectedWith := by
  cases e <;> simp only [stepTwo, recordFailure] <;> first
    | (split <;> [skip; split] <;> simp [h])
    | (split <;> simp [h])
    | simp [h]

/-- Fold form of `stepTwo_hasError_stable`. -/
theorem foldTwo_hasError_stable (es : List TEvent) (st : TwoState)
    (h : st.hasError = true) :
    (es.foldl stepTwo st).rejectedWith = st.rejectedWith := by
  induction es generalizing st with
  | nil => rfl
  | cons e es ih =>
    obtain ⟨h1, h2⟩ := stepTwo_hasError_stable st e h
    exact (ih (stepTwo st e) h1).trans h2

/-- An event carrying no failure leaves the guard and the recorded
failure unchanged. -/
theorem stepTwo_no_failure (st : TwoState) (e : TEvent)
    (h : failureOf e = none) :
    (stepTwo st e).hasError = st.hasError ∧
      (stepTwo st e).rejectedWith = st.rejectedWith := by
  cases e with
  | ytdlpClose code =>
    simp only [failureOf, ite_eq_right_iff] at h
    by_cases hc : (code != 0) = true
    · exact absurd (h hc) (by simp)
    · simp only [stepTwo]
      split
      · exact ⟨rfl, rfl⟩
      · simp only [Bool.not_eq_true] at hc
        simp [hc]
  | ffmpegClose code =>
    simp only [failureOf, ite_eq_right_iff] at h
    by_cases hc : (code != 0) = true
    · exact absurd (h hc) (by simp)
    · simp only [stepTwo]
      split
      · exact ⟨rfl, rfl⟩
      · simp only [Bool.not_eq_true] at hc
        simp [hc]
  | ytdlpFail msg => simp [failureOf] at h
  | ffmpegFail msg => simp [failureOf] at h
  | ytdlpErrData s => exact ⟨rfl, rfl⟩
  | ffmpegErrData s => exact ⟨rfl, rfl⟩
  | outData chunk =>
    simp only [stepTwo]
    split <;> exact ⟨rfl, rfl⟩
  | disconnect =>
    simp only [stepTwo]
    split <;> exact ⟨rfl, rfl⟩

/-- When the guard is clear, an event carrying a failure runs the
shared failure body on that failure. -/
theorem stepTwo_failure (st : TwoState) (e : TEvent) (f : TwoFailure)
    (h1 : st.hasError = false) (hf : failureOf e = some f) :
    stepTwo st e = recordFailure st f := by
  cases e with
  | ytdlpFail msg =>
    simp only [failureOf, Option.some.injEq] at hf
    simp [stepTwo, h1, hf]
  | ffmpegFail msg =>
    simp only [failureOf, Option.some.injEq] at hf
    simp [stepTwo, h1, hf]
  | ytdlpClose code =>
    simp only [failureOf] at hf
    by_cases hc : (code != 0) = true
    · rw [if_pos hc, Option.some.injEq] at hf
      simp [stepTwo, h1, hc, hf]
    · rw [if_neg hc] at hf
      exact absurd hf (by simp)
  | ffmpegClose code =>
    simp only [failureOf] at hf
    by_cases hc : (code != 0) = true
    · rw [if_pos hc, Option.some.injEq] at hf
      simp [stepTwo, h1, hc, hf]
    · rw [if_neg hc] at hf
      exact absurd hf (by simp)
  | ytdlpErrData s => simp [failureOf] at hf
  | ffmpegErrData s => simp [failureOf] at hf
  | outData chunk => simp [failureOf] at hf
  | disconnect => simp [failureOf] at hf

/-- Invariant form of C6: from a clean latch, the recorded failure
after the run is the first failure event of the sequence. -/
theorem foldTwo_first_failure (es : List TEvent) (st : TwoState)
    (h1 : st.hasError = false) (h2 : st.rejectedWith = none) :
    (es.foldl stepTwo st).rejectedWith = (es.filterMap failureOf).head? := by
  induction es generalizing st with
  | nil => simpa using h2
  | cons e es ih =>
    rw [List.foldl_cons, List.filterMap_cons]
    cases hf : failureOf e with
    | none =>
      obtain ⟨g1, g2⟩ := stepTwo_no_failure st e hf
      exact ih (stepTwo st e) (g1.trans h1) (g2.trans h2)
    | some f =>
      rw [stepTwo_failure st e f h1 hf]
      have := foldTwo_hasError_stable es (recordFailure st f) (by simp [recordFailure])
      rw [this]
      rfl

/-- C6: the two-stage failure settlement is a single-assignment latch —
among the four candidate failure events (either spawn failure, either
non-zero exit), whichever arrives first is the one recorded, every
later failure event is discarded by the guard, and the recorded outcome
is a deterministic function of arrival order. -/
theorem c6_first_failure_wins (es : List TEvent) :
    (runTwo es).rejectedWith = (es.filterMap failureOf).head? :=
  foldTwo_first_failure es initTwo rfl rfl

end YouCast

namespace YouCast

/-- True exactly for single-stage stderr data events. -/
def isErrData : SEvent → Bool
  | SEvent.errData _ => true
  | _ => false

/-- Concatenation of the stderr payloads of a single-stage event
sequence, in arrival order. -/
def stderrConcat : List SEvent → String
  | [] => ""
  | SEvent.errData s :: rest => s ++ stderrConcat rest
  | SEvent.out _ :: rest => stderrConcat rest
  | SEvent.close _ :: rest => stderrConcat rest
  | SEvent.procError _ :: rest => stderrConcat rest

/-- Only the stderr handler touches the single-stage buffer. -/
theorem stepSingle_stderr (st : SingleState) (e : SEvent) :
    (stepSingle st e).stderr =
      match e with
      | SEvent.errData s => st.stderr ++ s
      | _ => st.stderr := by
  cases e <;> simp only [stepSingle] <;> first | (split <;> rfl) | rfl

/-- The single-stage buffer accumulates exactly the concatenation of
all stderr payloads: every chunk is kept in full. -/
theorem foldSingle_stderr (es : List SEvent) (st : SingleState) :
    (es.foldl stepSingle st).stderr = st.stderr ++ stderrConcat es := by
  induction es generalizing st with
  | nil => simp [stderrConcat]
  | cons e es ih =>
    rw [List.foldl_cons, ih]
    cases e with
    | errData s => simp [stepSingle_stderr, stderrConcat, String.append_assoc]
    | out c => simp [stepSingle_stderr, stderrConcat]
    | close code => simp [stepSingle_stderr, stderrConcat]
    | procError msg => simp [stepSingle_stderr, stderrConcat]

/-- A prefix of pure stderr events settles nothing and starts no
stream. -/
theorem foldSingle_errData_prefix (pre : List SEvent) (st : SingleState)
    (hpre : pre.all isErrData = true) :
    (pre.foldl stepSingle st).settled = st.settled ∧
      (pre.foldl stepSingle st).streamStarted = st.streamStarted := by
  induction pre generalizing st with
  | nil => exact ⟨rfl, rfl⟩
  | cons e pre ih =>
    rw [List.all_cons, Bool.and_eq_true] at hpre
    cases e with
    | errData s => exact ih _ hpre.2
    | out c => exact absurd hpre.1 (by simp [isErrData])
    | close code => exact absurd hpre.1 (by simp [isErrData])
    | procError msg => exact absurd hpre.1 (by simp [isErrData])

/-- C5: in the single-stage branch, when the extractor exits with a
non-zero code after emitting zero stdout bytes (its observed events are
stderr chunks followed by the close), the request is rejected with an
error carrying the full accumulated stderr text, and it stays rejected
through any later events — no handle is ever produced. -/
theorem c5_zero_output_reject (pre post : List SEvent) (code : Int)
    (hpre : pre.all isErrData = true) (hc : code ≠ 0) :
    (runSingle (pre ++ SEvent.close code :: post)).settled =
      some (Settlement.rejected (closeMsg code (stderrConcat pre))) := by
  show (List.foldl stepSingle initSingle (pre ++ SEvent.close code :: post)).settled = _
  rw [List.foldl_append, List.foldl_cons]
  obtain ⟨g1, g2⟩ := foldSingle_errData_prefix pre initSingle hpre
  have g3 := foldSingle_stderr pre initSingle
  set st1 := List.foldl stepSingle initSingle pre with hst1
  have hstderr : st1.stderr = stderrConcat pre := by
    rw [g3]
    simp [initSingle]
  have hstep : (stepSingle st1 (SEvent.close code)).settled =
      some (Settlement.rejected (closeMsg code (stderrConcat pre))) := by
    have hcc : (code != 0 && !st1.streamStarted) = true := by
      simp [g2, initSingle, bne_iff_ne, hc]
    simp only [stepSingle, if_pos hcc]
    rw [g1, hstderr]
    rfl
  exact foldSingle_settled_stable post _ _ hstep

/-- Witness for C5 at a concrete run: one stderr chunk, then exit code
1 with zero stdout bytes. -/
theorem c5_zero_output_reject_witness :
    (runSingle [SEvent.errData "boom", SEvent.close 1]).settled =
      some (Settlement.rejected (closeMsg 1 (stderrConcat [SEvent.errData "boom"]))) :=
  c5_zero_output_reject [SEvent.errData "boom"] [] 1 (by decide) (by decide)

/-- C7 fails as stated: the accumulated stderr buffer admits no fixed
size bound — for every candidate bound there is a diagnostic event
sequence whose accumulated buffer is at least that long, since every
chunk is kept in full. -/
theorem c7_counterexample :
    ¬ ∃ B : Nat, ∀ es : List SEvent, (runSingle es).stderr.length < B := by
  rintro ⟨B, hB⟩
  have h := hB [SEvent.errData (String.mk (List.replicate B 'a'))]
  have h0 : ("" : String) ++ String.mk (List.replicate B 'a') =
      String.mk (List.replicate B 'a') := by simp
  have hlen : (runSingle [SEvent.errData (String.mk (List.replicate B 'a'))]).stderr.length
      = B := by
    show (("" : String) ++ String.mk (List.replicate B 'a')).length = B
    rw [h0]
    show (List.replicate B 'a').length = B
    simp
  rw [hlen] at h
  exact lt_irrefl B h

/-- Concatenation of the yt-dlp stderr payloads of a two-stage event
sequence; ffmpeg stderr chunks are only logged, never accumulated. -/
def tstderrConcat : List TEvent → String
  | [] => ""
  | TEvent.ytdlpErrData s :: rest => s ++ tstderrConcat rest
  | TEvent.ffmpegErrData _ :: rest => tstderrConcat rest
  | TEvent.ytdlpFail _ :: rest => tstderrConcat rest
  | TEvent.ffmpegFail _ :: rest => tstderrConcat rest
  | TEvent.ytdlpClose _ :: rest => tstderrConcat rest
  | TEvent.ffmpegClose _ :: rest => tstderrConcat rest
  | TEvent.outData _ :: rest => tstderrConcat rest
  | TEvent.disconnect :: rest => tstderrConcat rest

/-- Only the yt-dlp stderr handler touches the two-stage buffer. -/
theorem stepTwo_stderr (st : TwoState) (e : TEvent) :
    (stepTwo st e).stderr =
      match e with
      | TEvent.ytdlpErrData s => st.stderr ++ s
      | _ => st.stderr := by
  cases e <;> simp only [stepTwo, recordFailure] <;> first
    | (split <;> [skip; split] <;> rfl)
    | (split <;> rfl)
    | rfl

/-- The two-stage buffer accumulates exactly the concatenation of all
yt-dlp stderr payloads. -/
theorem foldTwo_stderr (es : List TEvent) (st : TwoState) :
    (es.foldl stepTwo st).stderr = st.stderr ++ tstderrConcat es := by
  induction es generalizing st with
  | nil => simp [tstderrConcat]
  | cons e es ih =>
    rw [List.foldl_cons, ih]
    cases e <;> simp [stepTwo_stderr, tstderrConcat, String.append_assoc]

/-- Embedding of JavaScript `s.substring(0, n)`, as used when a stderr
excerpt is attached to an operational log message. -/
def jsSubstring (s : String) (n : Nat) : String :=
  ⟨s.data.take n⟩

/-- A substring excerpt never exceeds its requested size. -/
theorem jsSubstring_length_le (s : String) (n : Nat) :
    (jsSubstring s n).length ≤ n := by
  show (s.data.take n).length ≤ n
  rw [List.length_take]
  exact Nat.min_le_left _ _

/-- C7 amended: the stderr buffers themselves are unbounded — each run
accumulates the full concatenation of the diagnostic chunks (yt-dlp
chunks in the two-stage branch; ffmpeg chunks are only logged) — and
only the excerpts attached to log messages are size-bounded:
`stderr.substring(0, 500)` in the single-stage failure log and
`stderr.substring(0, 300)` in the two-stage one. -/
theorem c7_full_accumulation_bounded_excerpt (es : List SEvent) (ts : List TEvent) :
    (runSingle es).stderr = stderrConcat es ∧
      (runTwo ts).stderr = tstderrConcat ts ∧
      (jsSubstring (runSingle es).stderr 500).length ≤ 500 ∧
      (jsSubstring (runTwo ts).stderr 300).length ≤ 300 := by
  have h1 : (runSingle es).stderr = stderrConcat es := by
    have := foldSingle_stderr es initSingle
    simpa [initSingle, runSingle] using this
  have h2 : (runTwo ts).stderr = tstderrConcat ts := by
    have := foldTwo_stderr ts initTwo
    simpa [initTwo, runTwo] using this
  exact ⟨h1, h2, jsSubstring_length_le _ _, jsSubstring_length_le _ _⟩

end YouCast
